import Mathlib

/-
Verification of the model-detection and capability-validation core of the
siglent-visa library (a VISA client for Siglent SDG-series function
generators).

The embedding below is a direct shallow translation of the Python source:

* `src/factory.py` — `SiglentInstrumentFactory.detect_model_from_idn`,
  `create_instrument`, and the module-level `detect_siglent_model`;
* `src/sdg1000/sdg1000_instrument.py` — the `SDG1000` facade: the pure
  validators `_validate_frequency` / `_validate_amplitude`, the mutating
  operations `set_wave_frequency`, `set_wave_period`, `set_burst`,
  `set_sweep`, and the response decoders `get_wave_info` /
  `get_modulation_settings`;
* `src/sdg2000x/sdg2000x_instrument.py` — the `SDG2000X` facade (which
  performs no validation): `set_wave_frequency`, `get_modulation_settings`.

Modelling conventions:

* Python `float` values are modelled as `ℚ` (all constants of the source are
  exactly representable); Python `str` as `String`, with the string
  operations the source uses (strip, split on comma, upper, lower,
  `replace`) re-implemented structurally on `List Char` so that they are
  fully executable.
* A Python method that may `raise` is modelled as returning `Except String α`.
* Transport writes are modelled explicitly: a mutating operation is a `Proc`
  value — a function from the list of commands already written to the
  extended list of written commands together with an `Except` result — so
  that the commands emitted *before* an exception are observable.
* Python `re.search(pat, s, re.IGNORECASE)` for the six registry patterns
  (all of shape literal + fixed digit count + optional literal + `[A-Z]*`)
  is modelled by `reSearch`.  The trailing `[A-Z]*` of every source pattern
  matches the empty string, so it never affects whether a search match
  exists and is dropped from the match model.
* Python `float(s)` string-to-number conversion is a collaborator-level
  detail; decoders are parameterised by an abstract partial conversion
  `pf : String → Option ℚ` (`none` models the `ValueError` raise), and the
  text rendering of a number into a command (Python f-string interpolation)
  is `pyRepr`/`pyReprInt`; no claim depends on the rendered digits.
-/

namespace SiglentVisa

/-! ### Python string primitives, re-implemented on `List Char` -/

/-- Python `str.strip()`: drop whitespace from both ends. -/
def pyStrip (cs : List Char) : List Char :=
  ((cs.dropWhile Char.isWhitespace).reverse.dropWhile Char.isWhitespace).reverse

/-- Python split on a comma separator: `n` commas yield `n + 1`
fields, and the empty string yields one empty field. -/
def splitOnComma : List Char → List (List Char)
  | [] => [[]]
  | c :: cs =>
      if c = ',' then [] :: splitOnComma cs
      else
        match splitOnComma cs with
        | [] => [[c]]
        | f :: rest => (c :: f) :: rest

/-- Python `str.upper()` applied characterwise. -/
def pyUpper (s : String) : String := String.mk (s.data.map Char.toUpper)

/-- Python `str.lower()` applied characterwise. -/
def pyLower (s : String) : String := String.mk (s.data.map Char.toLower)

/-- Text rendering of a float into a command string (Python f-string).  The
exact digits are irrelevant to every claim. -/
def pyRepr (q : ℚ) : String := toString q

/-- Text rendering of an int into a command string (Python f-string). -/
def pyReprInt (n : Int) : String := toString n

/-- Consume `lit` (case-sensitively) from the front of `cs`. -/
def stripLit : List Char → List Char → Option (List Char)
  | [], cs => some cs
  | _ :: _, [] => none
  | l :: ls, c :: cs => if l = c then stripLit ls cs else none

theorem stripLit_length {ls cs r : List Char} (h : stripLit ls cs = some r) :
    r.length ≤ cs.length := by
  induction ls generalizing cs with
  | nil =>
      simp only [stripLit, Option.some.injEq] at h
      subst h; exact Nat.le_refl _
  | cons l ls ih =>
      cases cs with
      | nil => simp [stripLit] at h
      | cons c cs =>
          simp only [stripLit] at h
          split at h
          · exact Nat.le_succ_of_le (ih h)
          · cases h

/-- Python replace with empty replacement text, for a non-empty literal
pattern `p0 :: ps`: remove
every non-overlapping occurrence, scanning left to right.  (Every `replace`
in the source removes a unit suffix, so the replacement text is empty.) -/
def removeAll (p0 : Char) (ps : List Char) : List Char → List Char
  | [] => []
  | c :: cs =>
      if c = p0 then
        match h : stripLit ps cs with
        | some rest => removeAll p0 ps rest
        | none => c :: removeAll p0 ps cs
      else c :: removeAll p0 ps cs
termination_by cs => cs.length
decreasing_by
  all_goals simp only [List.length_cons]
  · have := stripLit_length h; omega
  · omega
  · omega

/-- Removal of a non-empty unit suffix string everywhere in the value, as
the source does with replace. -/
def stripUnit (unit : String) (value : String) : String :=
  match unit.data with
  | [] => value
  | u :: us => String.mk (removeAll u us value.data)

/-! ### Model detector (`src/factory.py`) -/

/-- Shape of every registry pattern of `factory.py`: a literal matched
case-insensitively, followed by a fixed number of decimal digits, followed by
a literal matched case-insensitively (empty for the SDG1000 family). -/
structure ModelPattern where
  lit : List Char
  digits : Nat
  tail : List Char
deriving DecidableEq

/-- Consume `lit` case-insensitively from the front of `cs`. -/
def stripLitCI : List Char → List Char → Option (List Char)
  | [], cs => some cs
  | _ :: _, [] => none
  | l :: ls, c :: cs => if l.toLower = c.toLower then stripLitCI ls cs else none

/-- Consume exactly `n` decimal digits from the front of `cs`. -/
def stripDigits : Nat → List Char → Option (List Char)
  | 0, cs => some cs
  | _ + 1, [] => none
  | n + 1, c :: cs => if c.isDigit then stripDigits n cs else none

/-- Does the pattern match at the very start of `cs`? -/
def matchAt (p : ModelPattern) (cs : List Char) : Bool :=
  match stripLitCI p.lit cs with
  | none => false
  | some r1 =>
      match stripDigits p.digits r1 with
      | none => false
      | some r2 => (stripLitCI p.tail r2).isSome

/-- Python `re.search`: does the pattern match at some position of `cs`? -/
def reSearch (p : ModelPattern) : List Char → Bool
  | [] => matchAt p []
  | c :: cs => matchAt p (c :: cs) || reSearch p cs

/-- Table `SDG1000_PATTERNS` of factory.py. -/
def SDG1000_PATTERNS : List ModelPattern :=
  [⟨"SDG1".data, 3, []⟩, ⟨"SDG10".data, 2, []⟩]

/-- Table `SDG2000X_PATTERNS` of factory.py. -/
def SDG2000X_PATTERNS : List ModelPattern :=
  [⟨"SDG2".data, 3, "X".data⟩, ⟨"SDG20".data, 2, "X".data⟩]

/-- Table `SDG6000X_PATTERNS` of factory.py. -/
def SDG6000X_PATTERNS : List ModelPattern :=
  [⟨"SDG6".data, 3, "X".data⟩, ⟨"SDG60".data, 2, "X".data⟩]

/-- Does any pattern of the list search-match the designator? -/
def anyMatch (ps : List ModelPattern) (designator : List Char) : Bool :=
  ps.any fun p => reSearch p designator

/-- Transcription of `SiglentInstrumentFactory.detect_model_from_idn`
(factory.py lines
48–92), transcribed branch for branch. -/
def detect_model_from_idn (idn_response : String) : Except String String :=
  if idn_response = "" then
    .error "Empty or invalid *IDN? response"
  else
    let parts := splitOnComma (pyStrip idn_response.data)
    if parts.length < 2 then
      .error ("Invalid *IDN? format: " ++ idn_response)
    else
      let model_name := pyStrip (parts.getD 1 [])
      if anyMatch SDG1000_PATTERNS model_name then .ok "SDG1000"
      else if anyMatch SDG2000X_PATTERNS model_name then .ok "SDG2000X"
      else if anyMatch SDG6000X_PATTERNS model_name then .ok "SDG6000X"
      else .error ("Unsupported model detected: " ++ String.mk model_name)

/-- The family registry in the fixed priority order of the source:
SDG1000 first, then SDG2000X, then SDG6000X. -/
def familyOrder : List (String × List ModelPattern) :=
  [("SDG1000", SDG1000_PATTERNS),
   ("SDG2000X", SDG2000X_PATTERNS),
   ("SDG6000X", SDG6000X_PATTERNS)]

/-- Claim-side description of detection: the first family of `familyOrder`
with any search-matching pattern for the designator. -/
def firstMatchingFamily (designator : List Char) : Option String :=
  (familyOrder.find? fun fp => anyMatch fp.2 designator).map (·.1)

/-! ### Command-emission processes

A mutating facade operation writes zero or more commands to the transport
and either returns normally or raises.  `Proc α` threads the list of
commands written so far, so the commands emitted before an exception stay
observable. -/

def Proc (α : Type) : Type := List String → List String × Except String α

/-- Run a process with an empty command log. -/
def runProc {α : Type} (p : Proc α) : List String × Except String α := p []

def Proc.pureP {α : Type} (a : α) : Proc α := fun log => (log, .ok a)

def Proc.bindP {α β : Type} (p : Proc α) (f : α → Proc β) : Proc β := fun log =>
  match p log with
  | (log2, .ok a) => f a log2
  | (log2, .error e) => (log2, .error e)

instance : Monad Proc where
  pure := Proc.pureP
  bind := Proc.bindP

/-- Writing one command to the transport. -/
def emit (cmd : String) : Proc Unit := fun log => (log ++ [cmd], .ok ())

/-- Raising a validation error. -/
def failP {α : Type} (msg : String) : Proc α := fun log => (log, .error msg)

/-- Run a pure validator inside a process: a raise propagates, a normal
return continues. -/
def liftExcept {α : Type} (e : Except String α) : Proc α := fun log => (log, e)

theorem bind_apply {α β : Type} (p : Proc α) (f : α → Proc β) (log : List String) :
    (p >>= f) log =
      match p log with
      | (log2, .ok a) => f a log2
      | (log2, .error e) => (log2, .error e) := rfl

theorem emit_apply (c : String) (log : List String) :
    emit c log = (log ++ [c], .ok ()) := rfl

theorem failP_apply {α : Type} (msg : String) (log : List String) :
    (failP msg : Proc α) log = (log, .error msg) := rfl

theorem pureP_apply {α : Type} (a : α) (log : List String) :
    (pure a : Proc α) log = (log, .ok a) := rfl

theorem liftExcept_apply {α : Type} (e : Except String α) (log : List String) :
    liftExcept e log = (log, e) := rfl

/-! ### SDG1000 capability constants
(src/sdg1000/sdg1000_instrument.py, class attributes) -/

namespace SDG1000

def FREQ_MIN : ℚ := mkRat 1 1000000
def FREQ_MAX : ℚ := 10000000
def AMP_MIN : ℚ := mkRat 2 1000
def AMP_MAX_50_OHM : ℚ := 10
def AMP_MAX_HIGH_Z : ℚ := 20
def OFFSET_MAX_50_OHM : ℚ := 5
def OFFSET_MAX_HIGH_Z : ℚ := 10
def FREQ_MAX_RAMP : ℚ := 200000
def FREQ_MAX_PULSE : ℚ := 5000000
def FREQ_MAX_NOISE : ℚ := 5000000
def FREQ_MAX_ARB : ℚ := 5000000
def BURST_CYCLES_MIN : Int := 1
def BURST_CYCLES_MAX : Int := 50000
def LOAD_50_OHM : Int := 50
def HIGH_IMPEDANCE : Int := 0

/-- Transcription of the private frequency validator of `SDG1000`
(lines 83–115), branch for
branch; the waveform constants `WAVEFORM_RAMP` … are the string literals
`"RAMP"`, `"PULSE"`, `"NOISE"`, `"ARB"`. -/
def validate_frequency (frequency : ℚ) (waveform_type : Option String) :
    Except String Unit :=
  if frequency < FREQ_MIN ∨ frequency > FREQ_MAX then
    .error "Frequency out of range (1e-06 Hz - 10000000.0 Hz) for SDG1000"
  else if waveform_type = some "RAMP" ∧ frequency > FREQ_MAX_RAMP then
    .error "Frequency exceeds RAMP limit (200000.0 Hz) for SDG1000"
  else if waveform_type = some "PULSE" ∧ frequency > FREQ_MAX_PULSE then
    .error "Frequency exceeds PULSE limit (5000000.0 Hz) for SDG1000"
  else if waveform_type = some "NOISE" ∧ frequency > FREQ_MAX_NOISE then
    .error "Frequency exceeds NOISE limit (5000000.0 Hz) for SDG1000"
  else if waveform_type = some "ARB" ∧ frequency > FREQ_MAX_ARB then
    .error "Frequency exceeds ARB limit (5000000.0 Hz) for SDG1000"
  else
    .ok ()

/-- Claim-side table: the per-waveform frequency cap of the SDG1000 family
(absent entries mean the global maximum applies). -/
def per_waveform_frequency_cap (waveform_type : String) : Option ℚ :=
  if waveform_type = "RAMP" then some FREQ_MAX_RAMP
  else if waveform_type = "PULSE" then some FREQ_MAX_PULSE
  else if waveform_type = "NOISE" then some FREQ_MAX_NOISE
  else if waveform_type = "ARB" then some FREQ_MAX_ARB
  else none

/-- Transcription of the private amplitude validator of `SDG1000`
(lines 117–150), branch for
branch.  `load_impedance = none` models the Python `None` default. -/
def validate_amplitude (amplitude : ℚ) (load_impedance : Option Int) :
    Except String Unit :=
  if amplitude < AMP_MIN then
    .error "Amplitude below minimum (0.002 V) for SDG1000"
  else if load_impedance = some LOAD_50_OHM then
    if amplitude > AMP_MAX_50_OHM then
      .error "Amplitude exceeds 50 Ohm limit (10.0 V) for SDG1000"
    else .ok ()
  else if load_impedance = some HIGH_IMPEDANCE then
    if amplitude > AMP_MAX_HIGH_Z then
      .error "Amplitude exceeds High-Z limit (20.0 V) for SDG1000"
    else .ok ()
  else
    if amplitude > AMP_MAX_50_OHM then
      .error "Amplitude exceeds default limit (10.0 V) for SDG1000"
    else .ok ()

end SDG1000

/-! ### Python truthiness of optional arguments

The source guards optional parameters with `if x:`; for a Python float this
is false at `None` and at `0.0`, for a string at `None` and at the empty
string. -/

def truthyQ : Option ℚ → Bool
  | none => false
  | some q => q != 0

def truthyInt : Option Int → Bool
  | none => false
  | some n => n != 0

def truthyStr : Option String → Bool
  | none => false
  | some s => s != ""

namespace SDG1000

/-- Transcription of `SDG1000.set_wave_frequency` (lines 340–361).  Here
`lookup` is the outcome of the guarded waveform-kind lookup the method
performs first (`get_wave_info` followed by reading the type key): `.ok t`
when the query succeeded and decoded — `t` is the current waveform kind of
the channel, or `none` when the response had no type field — and `.error`
when the query or decode raised, which the bare except clause
maps to no waveform kind. -/
def set_wave_frequency (channel : String) (frequency : ℚ)
    (lookup : Except String (Option String)) : Proc Unit := do
  let waveform_type :=
    match lookup with
    | .ok t => t
    | .error _ => none
  liftExcept (validate_frequency frequency waveform_type)
  emit (channel ++ ":BSWV FRQ," ++ pyRepr frequency)

/-- Transcription of `SDG1000.set_wave_period` (lines 363–383): the
frequency validated is
`1.0 / period if period > 0 else 0`. -/
def set_wave_period (channel : String) (period : ℚ)
    (lookup : Except String (Option String)) : Proc Unit := do
  let frequency : ℚ := if period > 0 then 1 / period else 0
  let waveform_type :=
    match lookup with
    | .ok t => t
    | .error _ => none
  liftExcept (validate_frequency frequency waveform_type)
  emit (channel ++ ":BSWV PERI," ++ pyRepr period)

/-- Transcription of `SDG1000.set_burst` (lines 575–607): the cycle count
is validated (when
supplied) before the first write; each further parameter is written only when
truthy and the state is `ON`. -/
def set_burst (channel state : String) (n_cycle : Option Int)
    (period : Option ℚ) (trigger_source : Option String) : Proc Unit := do
  (match n_cycle with
   | some n =>
      if n < BURST_CYCLES_MIN ∨ n > BURST_CYCLES_MAX then
        failP "Burst cycles out of range (1-50000) for SDG1000"
      else pure ()
   | none => pure ())
  emit (channel ++ ":BTWV STATE," ++ state)
  if pyUpper state = "ON" then
    (if truthyInt n_cycle then
        emit (channel ++ ":BTWV GATE_NCYC," ++ pyReprInt (n_cycle.getD 0))
     else pure ())
    (if truthyQ period then
        emit (channel ++ ":BTWV PRD," ++ pyRepr (period.getD 0))
     else pure ())
    (if truthyStr trigger_source then
        emit (channel ++ ":BTWV TRSR," ++ trigger_source.getD "")
     else pure ())
  else pure ()

/-- Transcription of `SDG1000.set_sweep` (lines 630–667): the sweep type is
checked before the
first write, but the start/stop frequencies are validated only after the
`SWWV STATE` command (and, for the stop frequency, after the start-frequency
command) has been written. -/
def set_sweep (channel state : String) (start_freq stop_freq sweep_time : Option ℚ)
    (sweep_type : Option String) : Proc Unit := do
  if truthyStr sweep_type && (pyUpper (sweep_type.getD "") != "LIN") then
    failP "SDG1000 only supports LINEAR sweep"
  else pure ()
  emit (channel ++ ":SWWV STATE," ++ state)
  if pyUpper state = "ON" then
    (if truthyQ start_freq then do
        liftExcept (validate_frequency (start_freq.getD 0) none)
        emit (channel ++ ":SWWV STFR," ++ pyRepr (start_freq.getD 0))
     else pure ())
    (if truthyQ stop_freq then do
        liftExcept (validate_frequency (stop_freq.getD 0) none)
        emit (channel ++ ":SWWV SPFR," ++ pyRepr (stop_freq.getD 0))
     else pure ())
    (if truthyQ sweep_time then
        emit (channel ++ ":SWWV TIME," ++ pyRepr (sweep_time.getD 0))
     else pure ())
    (if truthyStr sweep_type then
        emit (channel ++ ":SWWV SWTP," ++ sweep_type.getD "")
     else pure ())
  else pure ()

end SDG1000

namespace SDG2000X

/-- Transcription of `SDG2000X.set_wave_frequency` (sdg2000x_instrument.py
lines 191–200):
no validation at all, one unconditional write. -/
def set_wave_frequency (channel : String) (frequency : ℚ) : Proc Unit :=
  emit (channel ++ ":BSWV FRQ," ++ pyRepr frequency)

end SDG2000X

/-! ### Factory construction and detection flows (`src/factory.py`) -/

/-- Error taxonomy at the factory boundary: `UnsupportedModelError` versus
any other exception (pyvisa connection/timeout failures, modelled as
`transport`). -/
inductive FactoryError where
  | unsupportedModel : String → FactoryError
  | transport : String → FactoryError
deriving DecidableEq

def FactoryError.isUnsupported : FactoryError → Bool
  | .unsupportedModel _ => true
  | .transport _ => false

instance {ε α : Type} [DecidableEq ε] [DecidableEq α] :
    DecidableEq (Except ε α) := fun x y =>
  match x, y with
  | .ok a, .ok b =>
      if h : a = b then isTrue (by rw [h])
      else isFalse (by intro hc; cases hc; exact h rfl)
  | .error e, .error f =>
      if h : e = f then isTrue (by rw [h])
      else isFalse (by intro hc; cases hc; exact h rfl)
  | .ok _, .error _ => isFalse (by intro hc; cases hc)
  | .error _, .ok _ => isFalse (by intro hc; cases hc)

/-- Collaborator behaviour for one factory call: whether opening the
transient identification connection succeeds, what the `*IDN?` query
returns, and whether constructing the final facade of each family
succeeds.  An `.error` value carries the message of the raised
transport exception. -/
structure Transport where
  openTemp : Except String Unit
  idnQuery : Except String String
  buildSDG1000 : Except String Unit
  buildSDG2000X : Except String Unit

/-- Observable outcome of one factory call: the returned family or raised
error, whether the transient identification connection was opened and
whether it was closed again, how many identification queries were issued,
and how many final-facade constructions were attempted. -/
structure FactoryOutcome where
  result : Except FactoryError String
  tempOpened : Bool
  tempClosed : Bool
  queries : Nat
  builds : Nat
deriving DecidableEq

/-- Transcription of `SiglentInstrumentFactory.create_instrument`
(factory.py lines 94–163),
transcribed path for path.  Python `if model_hint:` is truthiness: `None`
and the empty string both take the auto-detection branch.  In the
auto-detection branch every exception is caught, the transient connection is
closed if still open, and a non-`UnsupportedModelError` is re-raised as
`UnsupportedModelError("Failed to detect model: ...")`. -/
def create_instrument (model_hint : Option String) (t : Transport) :
    FactoryOutcome :=
  if truthyStr model_hint then
    let h := model_hint.getD ""
    if h = "SDG1000" then
      match t.buildSDG1000 with
      | .ok _ => ⟨.ok "SDG1000", false, false, 0, 1⟩
      | .error e => ⟨.error (.transport e), false, false, 0, 1⟩
    else if h = "SDG2000X" then
      match t.buildSDG2000X with
      | .ok _ => ⟨.ok "SDG2000X", false, false, 0, 1⟩
      | .error e => ⟨.error (.transport e), false, false, 0, 1⟩
    else if h = "SDG6000X" then
      ⟨.error (.unsupportedModel "SDG6000X not yet implemented"), false, false, 0, 0⟩
    else
      ⟨.error (.unsupportedModel ("Unknown model hint: " ++ h)), false, false, 0, 0⟩
  else
    match t.openTemp with
    | .error e =>
        ⟨.error (.unsupportedModel ("Failed to detect model: " ++ e)),
          false, false, 0, 0⟩
    | .ok _ =>
        match t.idnQuery with
        | .error e =>
            ⟨.error (.unsupportedModel ("Failed to detect model: " ++ e)),
              true, true, 1, 0⟩
        | .ok idn =>
            match detect_model_from_idn idn with
            | .error msg => ⟨.error (.unsupportedModel msg), true, true, 1, 0⟩
            | .ok fam =>
                if fam = "SDG1000" then
                  match t.buildSDG1000 with
                  | .ok _ => ⟨.ok "SDG1000", true, true, 1, 1⟩
                  | .error e =>
                      ⟨.error (.unsupportedModel ("Failed to detect model: " ++ e)),
                        true, true, 1, 1⟩
                else if fam = "SDG2000X" then
                  match t.buildSDG2000X with
                  | .ok _ => ⟨.ok "SDG2000X", true, true, 1, 1⟩
                  | .error e =>
                      ⟨.error (.unsupportedModel ("Failed to detect model: " ++ e)),
                        true, true, 1, 1⟩
                else if fam = "SDG6000X" then
                  ⟨.error (.unsupportedModel "SDG6000X not yet implemented"),
                    true, true, 1, 0⟩
                else
                  ⟨.error (.unsupportedModel
                      ("Detected model family " ++ fam ++ " not implemented")),
                    true, true, 1, 0⟩

/-- Module-level `detect_siglent_model` (factory.py lines 236–256):
`try ... finally: close` with *no* exception wrapping — a transport failure
propagates unchanged. -/
def detect_siglent_model (t : Transport) : FactoryOutcome :=
  match t.openTemp with
  | .error e => ⟨.error (.transport e), false, false, 0, 0⟩
  | .ok _ =>
      match t.idnQuery with
      | .error e => ⟨.error (.transport e), true, true, 1, 0⟩
      | .ok idn =>
          match detect_model_from_idn idn with
          | .error msg => ⟨.error (.unsupportedModel msg), true, true, 1, 0⟩
          | .ok fam => ⟨.ok fam, true, true, 1, 0⟩

/-! ### Response decoders -/

/-- A decoded field value: the waveform kind stays a string, every other
recognised field is numeric. -/
inductive WaveVal where
  | str : String → WaveVal
  | num : ℚ → WaveVal
deriving DecidableEq

/-- Python `float(s)` through the abstract conversion `pf`; `none` models
the `ValueError` raise. -/
def parseNum (pf : String → Option ℚ) (s : String) : Except String ℚ :=
  match pf s with
  | some q => .ok q
  | none => .error "ValueError: could not convert string to float"

/-- One iteration body of the `SDG1000.get_wave_info` decoding loop (lines
222–263): the branch chain over the (already stripped) key, with the unit
suffix each numeric branch removes before conversion.  An unmatched key
produces no entry. -/
def waveInfoEntry (pf : String → Option ℚ) (key value : String) :
    Except String (Option (String × WaveVal)) :=
  if key = "C1:BSWV WVTP" ∨ key = "C2:BSWV WVTP" then
    .ok (some ("type", .str value))
  else if key = "FRQ" then
    (parseNum pf (stripUnit "HZ" value)).map fun q => some ("frequency", .num q)
  else if key = "PERI" then
    (parseNum pf (stripUnit "S" value)).map fun q => some ("period", .num q)
  else if key = "AMP" then
    (parseNum pf (stripUnit "V" value)).map fun q => some ("amplitude", .num q)
  else if key = "AMPVRMS" then
    (parseNum pf (stripUnit "Vrms" value)).map fun q => some ("amp_vrms", .num q)
  else if key = "AMPDBM" then
    (parseNum pf (stripUnit "dBm" value)).map fun q => some ("amp_dbm", .num q)
  else if key = "MAX_OUTPUT_AMP" then
    (parseNum pf (stripUnit "V" value)).map fun q => some ("max_output_amp", .num q)
  else if key = "OFST" then
    (parseNum pf (stripUnit "V" value)).map fun q => some ("offset", .num q)
  else if key = "HLEV" then
    (parseNum pf (stripUnit "V" value)).map fun q => some ("high_level", .num q)
  else if key = "LLEV" then
    (parseNum pf (stripUnit "V" value)).map fun q => some ("low_level", .num q)
  else if key = "PHSE" then
    (parseNum pf value).map fun q => some ("phase", .num q)
  else if key = "DUTY" then
    (parseNum pf value).map fun q => some ("duty", .num q)
  else if key = "SYM" then
    (parseNum pf value).map fun q => some ("symmetry", .num q)
  else if key = "WIDTH" then
    (parseNum pf value).map fun q => some ("width", .num q)
  else if key = "RISE" then
    (parseNum pf (stripUnit "S" value)).map fun q => some ("rise", .num q)
  else if key = "FALL" then
    (parseNum pf (stripUnit "S" value)).map fun q => some ("fall", .num q)
  else if key = "DLY" then
    (parseNum pf value).map fun q => some ("delay", .num q)
  else if key = "STDEV" then
    (parseNum pf (stripUnit "V" value)).map fun q => some ("stdev", .num q)
  else if key = "MEAN" then
    (parseNum pf (stripUnit "V" value)).map fun q => some ("mean", .num q)
  else
    .ok none

/-- The keys the `get_wave_info` branch chain recognises. -/
def waveInfoKeys : List String :=
  ["C1:BSWV WVTP", "C2:BSWV WVTP", "FRQ", "PERI", "AMP", "AMPVRMS", "AMPDBM",
   "MAX_OUTPUT_AMP", "OFST", "HLEV", "LLEV", "PHSE", "DUTY", "SYM", "WIDTH",
   "RISE", "FALL", "DLY", "STDEV", "MEAN"]

/-- The `for i in range(0, len(fields), 2)` loop of `get_wave_info`: consumes
the fields pairwise; a leftover unpaired field is the `fields[i + 1]`
`IndexError`.  Entries are collected in insertion order. -/
def waveInfoLoop (pf : String → Option ℚ) :
    List String → Except String (List (String × WaveVal))
  | [] => .ok []
  | [_] => .error "IndexError: list index out of range"
  | k :: v :: rest => do
      let entry ← waveInfoEntry pf (String.mk (pyStrip k.data))
        (String.mk (pyStrip v.data))
      let tail ← waveInfoLoop pf rest
      match entry with
      | some e => pure (e :: tail)
      | none => pure tail

/-- Transcription of `SDG1000.get_wave_info` (lines 209–265) as a pure
decoder of the query
response. -/
def get_wave_info (pf : String → Option ℚ) (response : String) :
    Except String (List (String × WaveVal)) :=
  waveInfoLoop pf ((splitOnComma (pyStrip response.data)).map String.mk)

/-- The guarded pairwise loop of `get_modulation_settings` (identical in
SDG1000 lines 554–573 and SDG2000X lines 435–454): `if i + 1 < len(fields)`
silently skips a leftover unpaired field, and every key is stored
(lower-cased) — nothing raises. -/
def modSettingsLoop : List String → List (String × String)
  | k :: v :: rest =>
      (pyLower (String.mk (pyStrip k.data)), String.mk (pyStrip v.data)) ::
        modSettingsLoop rest
  | _ => []

/-- Transcription of `get_modulation_settings` as a pure decoder of the
query response. -/
def get_modulation_settings (response : String) : List (String × String) :=
  modSettingsLoop ((splitOnComma (pyStrip response.data)).map String.mk)


/-! ### Helper lemmas -/

theorem ifchain_eq_firstMatch (d : List Char) :
    (if anyMatch SDG1000_PATTERNS d then (Except.ok "SDG1000" : Except String String)
     else if anyMatch SDG2000X_PATTERNS d then .ok "SDG2000X"
     else if anyMatch SDG6000X_PATTERNS d then .ok "SDG6000X"
     else .error ("Unsupported model detected: " ++ String.mk d)) =
    (match firstMatchingFamily d with
     | some fam => .ok fam
     | none => .error ("Unsupported model detected: " ++ String.mk d)) := by
  by_cases m1 : anyMatch SDG1000_PATTERNS d <;>
  by_cases m2 : anyMatch SDG2000X_PATTERNS d <;>
  by_cases m3 : anyMatch SDG6000X_PATTERNS d <;>
  simp [firstMatchingFamily, familyOrder, List.find?, m1, m2, m3]

theorem detect_model_eq (idn : String) :
    detect_model_from_idn idn =
      if idn = "" then .error "Empty or invalid *IDN? response"
      else if (splitOnComma (pyStrip idn.data)).length < 2 then
        .error ("Invalid *IDN? format: " ++ idn)
      else
        match firstMatchingFamily
            (pyStrip ((splitOnComma (pyStrip idn.data)).getD 1 [])) with
        | some fam => .ok fam
        | none =>
            .error ("Unsupported model detected: " ++
              String.mk (pyStrip ((splitOnComma (pyStrip idn.data)).getD 1 []))) := by
  by_cases h0 : idn = ""
  · simp [detect_model_from_idn, h0]
  · by_cases h1 : (splitOnComma (pyStrip idn.data)).length < 2
    · simp [detect_model_from_idn, h0, h1]
    · have h2 := ifchain_eq_firstMatch
        (pyStrip ((splitOnComma (pyStrip idn.data)).getD 1 []))
      simp only [detect_model_from_idn]
      rw [if_neg h0, if_neg h0, if_neg h1, if_neg h1]
      exact h2


namespace SDG1000

theorem validate_frequency_none_iff (v : ℚ) :
    validate_frequency v none = .ok () ↔ FREQ_MIN ≤ v ∧ v ≤ FREQ_MAX := by
  unfold validate_frequency
  by_cases h : v < FREQ_MIN ∨ v > FREQ_MAX
  · rw [if_pos h]
    constructor
    · intro hc; cases hc
    · intro hr
      rcases h with h | h
      · exact absurd hr.1 (not_le.mpr h)
      · exact absurd hr.2 (not_le.mpr h)
  · rw [if_neg h]
    push_neg at h
    simp
    exact h

theorem validate_frequency_low (v : ℚ) (wt : Option String) (h : v < FREQ_MIN) :
    validate_frequency v wt =
      .error "Frequency out of range (1e-06 Hz - 10000000.0 Hz) for SDG1000" := by
  unfold validate_frequency
  rw [if_pos (Or.inl h)]

theorem validate_frequency_cap_exceeded (v : ℚ) (wt : String) (cap : ℚ)
    (hcap : per_waveform_frequency_cap wt = some cap) (hv : cap < v) :
    ∃ msg, validate_frequency v (some wt) = .error msg := by
  unfold per_waveform_frequency_cap at hcap
  unfold validate_frequency
  by_cases hg : v < FREQ_MIN ∨ v > FREQ_MAX
  · exact ⟨_, by rw [if_pos hg]⟩
  · split_ifs at hcap with h1 h2 h3 h4
    · subst h1; cases hcap
      exact ⟨_, by rw [if_neg hg, if_pos ⟨rfl, hv⟩]⟩
    · subst h2; cases hcap
      exact ⟨_, by rw [if_neg hg, if_neg (by simp), if_pos ⟨rfl, hv⟩]⟩
    · subst h3; cases hcap
      exact ⟨_, by rw [if_neg hg, if_neg (by simp), if_neg (by simp),
        if_pos ⟨rfl, hv⟩]⟩
    · subst h4; cases hcap
      exact ⟨_, by rw [if_neg hg, if_neg (by simp), if_neg (by simp),
        if_neg (by simp), if_pos ⟨rfl, hv⟩]⟩

theorem validate_amplitude_default_eq (amplitude : ℚ) (load : Option Int)
    (h : load = none ∨ (load ≠ some LOAD_50_OHM ∧ load ≠ some HIGH_IMPEDANCE)) :
    validate_amplitude amplitude load = validate_amplitude amplitude none := by
  unfold validate_amplitude
  rcases h with h | ⟨h1, h2⟩
  · rw [h]
  · rw [if_neg h1, if_neg h2,
      if_neg (show ¬ (none : Option Int) = some LOAD_50_OHM by simp),
      if_neg (show ¬ (none : Option Int) = some HIGH_IMPEDANCE by simp)]

theorem validate_amplitude_none_iff (amplitude : ℚ) :
    validate_amplitude amplitude none = .ok () ↔
      AMP_MIN ≤ amplitude ∧ amplitude ≤ AMP_MAX_50_OHM := by
  unfold validate_amplitude
  rw [if_neg (by simp : ¬ (none : Option Int) = some LOAD_50_OHM),
    if_neg (by simp : ¬ (none : Option Int) = some HIGH_IMPEDANCE)]
  by_cases h1 : amplitude < AMP_MIN
  · rw [if_pos h1]
    constructor
    · intro hc; cases hc
    · intro hr; exact absurd hr.1 (not_le.mpr h1)
  · rw [if_neg h1]
    by_cases h2 : amplitude > AMP_MAX_50_OHM
    · rw [if_pos h2]
      constructor
      · intro hc; cases hc
      · intro hr; exact absurd hr.2 (not_le.mpr h2)
    · rw [if_neg h2]
      simp
      exact ⟨not_lt.mp h1, not_lt.mp h2⟩

theorem validate_amplitude_none_strongest (amplitude : ℚ) (load : Option Int)
    (h : validate_amplitude amplitude none = .ok ()) :
    validate_amplitude amplitude load = .ok () := by
  have hr := (validate_amplitude_none_iff amplitude).mp h
  unfold validate_amplitude
  rw [if_neg (not_lt.mpr hr.1)]
  by_cases h5 : load = some LOAD_50_OHM
  · rw [if_pos h5, if_neg (not_lt.mpr hr.2)]
  · rw [if_neg h5]
    by_cases hz : load = some HIGH_IMPEDANCE
    · rw [if_pos hz, if_neg (not_lt.mpr (le_trans hr.2 (by norm_num [AMP_MAX_50_OHM, AMP_MAX_HIGH_Z])))]
    · rw [if_neg hz, if_neg (not_lt.mpr hr.2)]

theorem set_wave_frequency_lookup_failure_eq (channel : String) (frequency : ℚ)
    (m : String) :
    runProc (set_wave_frequency channel frequency (.error m)) =
      runProc (set_wave_frequency channel frequency (.ok none)) := rfl

theorem set_wave_frequency_lookup_failure_writes (channel : String) (frequency : ℚ)
    (m : String) (h1 : FREQ_MIN ≤ frequency) (h2 : frequency ≤ FREQ_MAX) :
    runProc (set_wave_frequency channel frequency (.error m)) =
      ([channel ++ ":BSWV FRQ," ++ pyRepr frequency], .ok ()) := by
  have hv := (validate_frequency_none_iff frequency).mpr ⟨h1, h2⟩
  unfold set_wave_frequency
  simp only [runProc, bind_apply, liftExcept_apply, hv, emit_apply, List.nil_append]

theorem set_wave_period_nonpos (channel : String) (period : ℚ)
    (lookup : Except String (Option String)) (h : period ≤ 0) :
    runProc (set_wave_period channel period lookup) =
      ([], .error "Frequency out of range (1e-06 Hz - 10000000.0 Hz) for SDG1000") := by
  have hfreq : (if period > 0 then 1 / period else (0 : ℚ)) = 0 :=
    if_neg (not_lt.mpr h)
  have hv := validate_frequency_low 0
    (match lookup with | .ok t => t | .error _ => none) (by norm_num [FREQ_MIN])
  unfold set_wave_period
  simp only [runProc, bind_apply, liftExcept_apply, hfreq, hv]

theorem set_burst_invalid_cycles (channel state : String) (n : Int)
    (period : Option ℚ) (trigger_source : Option String)
    (h : n < BURST_CYCLES_MIN ∨ n > BURST_CYCLES_MAX) :
    runProc (set_burst channel state (some n) period trigger_source) =
      ([], .error "Burst cycles out of range (1-50000) for SDG1000") := by
  unfold set_burst
  simp only [runProc, bind_apply, if_pos h, failP_apply]

theorem set_sweep_bad_type (channel state : String) (sf so st : Option ℚ)
    (swt : String) (h1 : swt ≠ "") (h2 : pyUpper swt ≠ "LIN") :
    runProc (set_sweep channel state sf so st (some swt)) =
      ([], .error "SDG1000 only supports LINEAR sweep") := by
  have hc : (truthyStr (some swt) && (pyUpper ((some swt).getD "") != "LIN")) = true := by
    simp [truthyStr, h1, h2]
  unfold set_sweep
  simp only [runProc, bind_apply, hc, if_true, failP_apply]

theorem set_sweep_freq_after_state (channel state : String) (sf : ℚ)
    (so st : Option ℚ) (emsg : String)
    (hon : pyUpper state = "ON") (hnz : sf ≠ 0)
    (hv : validate_frequency sf none = .error emsg) :
    runProc (set_sweep channel state (some sf) so st none) =
      ([channel ++ ":SWWV STATE," ++ state], .error emsg) := by
  have hq : truthyQ (some sf) = true := by simp [truthyQ, hnz]
  unfold set_sweep
  simp [runProc, bind_apply, truthyStr, pureP_apply, emit_apply, hon, hq,
    liftExcept_apply, hv, failP_apply]

end SDG1000



theorem waveInfoLoop_odd (pf : String → Option ℚ) :
    ∀ fields : List String, fields.length % 2 = 1 →
      ∃ msg, waveInfoLoop pf fields = .error msg
  | [], h => by simp at h
  | [_], _ => ⟨_, rfl⟩
  | k :: v :: rest, h => by
      have hr : rest.length % 2 = 1 := by
        simp only [List.length_cons] at h; omega
      obtain ⟨m, hm⟩ := waveInfoLoop_odd pf rest hr
      cases he : waveInfoEntry pf (String.mk (pyStrip k.data))
          (String.mk (pyStrip v.data)) with
      | error e =>
          refine ⟨e, ?_⟩
          show (waveInfoEntry pf (String.mk (pyStrip k.data))
              (String.mk (pyStrip v.data))).bind _ = _
          rw [he]; rfl
      | ok entry =>
          refine ⟨m, ?_⟩
          show (waveInfoEntry pf (String.mk (pyStrip k.data))
              (String.mk (pyStrip v.data))).bind _ = _
          rw [he]
          show (waveInfoLoop pf rest).bind _ = _
          rw [hm]; rfl

theorem modSettingsLoop_length :
    ∀ fields : List String, (modSettingsLoop fields).length = fields.length / 2
  | [] => rfl
  | [_] => by simp [modSettingsLoop]
  | _ :: _ :: rest => by
      simp only [modSettingsLoop, List.length_cons, modSettingsLoop_length rest]
      omega

theorem waveInfoEntry_unrecognized (pf : String → Option ℚ) (key value : String)
    (h : ¬ key ∈ waveInfoKeys) : waveInfoEntry pf key value = .ok none := by
  have hne : ∀ s, s ∈ waveInfoKeys → key ≠ s := fun s hs he => h (he ▸ hs)
  unfold waveInfoEntry
  rw [if_neg (show ¬ (key = "C1:BSWV WVTP" ∨ key = "C2:BSWV WVTP") from fun hc =>
        hc.elim (hne _ (by decide)) (hne _ (by decide))),
    if_neg (hne "FRQ" (by decide)),
    if_neg (hne "PERI" (by decide)),
    if_neg (hne "AMP" (by decide)),
    if_neg (hne "AMPVRMS" (by decide)),
    if_neg (hne "AMPDBM" (by decide)),
    if_neg (hne "MAX_OUTPUT_AMP" (by decide)),
    if_neg (hne "OFST" (by decide)),
    if_neg (hne "HLEV" (by decide)),
    if_neg (hne "LLEV" (by decide)),
    if_neg (hne "PHSE" (by decide)),
    if_neg (hne "DUTY" (by decide)),
    if_neg (hne "SYM" (by decide)),
    if_neg (hne "WIDTH" (by decide)),
    if_neg (hne "RISE" (by decide)),
    if_neg (hne "FALL" (by decide)),
    if_neg (hne "DLY" (by decide)),
    if_neg (hne "STDEV" (by decide)),
    if_neg (hne "MEAN" (by decide))]

theorem waveInfoLoop_skips_unrecognized (pf : String → Option ℚ) (k v : String)
    (rest : List String) (h : ¬ String.mk (pyStrip k.data) ∈ waveInfoKeys) :
    waveInfoLoop pf (k :: v :: rest) = waveInfoLoop pf rest := by
  have he := waveInfoEntry_unrecognized pf _ (String.mk (pyStrip v.data)) h
  show (waveInfoEntry pf (String.mk (pyStrip k.data))
      (String.mk (pyStrip v.data))).bind _ = _
  rw [he]
  show (waveInfoLoop pf rest).bind _ = _
  cases hl : waveInfoLoop pf rest <;> rfl


theorem create_auto_closes_and_wraps (t : Transport) :
    ((create_instrument none t).tempOpened = true →
      (create_instrument none t).tempClosed = true)
  ∧ (∀ e, (create_instrument none t).result = .error e →
      e.isUnsupported = true) := by
  obtain ⟨o, q, b1, b2⟩ := t
  cases o with
  | error e => constructor <;> simp [create_instrument, truthyStr, FactoryError.isUnsupported]
  | ok u =>
      cases u
      cases q with
      | error m => constructor <;> simp [create_instrument, truthyStr, FactoryError.isUnsupported]
      | ok idn =>
          cases hd : detect_model_from_idn idn with
          | error msg =>
              constructor <;> simp [create_instrument, truthyStr, hd, FactoryError.isUnsupported]
          | ok fam =>
              by_cases h1 : fam = "SDG1000"
              · cases b1 with
                | ok u => cases u; constructor <;>
                    simp [create_instrument, truthyStr, hd, h1, FactoryError.isUnsupported]
                | error e => constructor <;>
                    simp [create_instrument, truthyStr, hd, h1, FactoryError.isUnsupported]
              · by_cases h2 : fam = "SDG2000X"
                · cases b2 with
                  | ok u => cases u; constructor <;>
                      simp [create_instrument, truthyStr, hd, h1, h2, FactoryError.isUnsupported]
                  | error e => constructor <;>
                      simp [create_instrument, truthyStr, hd, h1, h2, FactoryError.isUnsupported]
                · by_cases h3 : fam = "SDG6000X" <;> constructor <;>
                    simp [create_instrument, truthyStr, hd, h1, h2, h3, FactoryError.isUnsupported]

theorem detect_only_closes_and_keeps_error (t : Transport) :
    ((detect_siglent_model t).tempOpened = true →
      (detect_siglent_model t).tempClosed = true)
  ∧ (∀ m, t.openTemp = .ok () → t.idnQuery = .error m →
      (detect_siglent_model t).result = .error (.transport m)) := by
  obtain ⟨o, q, b1, b2⟩ := t
  cases o with
  | error e =>
      constructor
      · simp [detect_siglent_model]
      · intro m ho; cases ho
  | ok u =>
      cases u
      cases q with
      | error m =>
          constructor
          · simp [detect_siglent_model]
          · intro m2 _ hq; cases hq; rfl
      | ok idn =>
          constructor
          · cases hd : detect_model_from_idn idn <;> simp [detect_siglent_model, hd]
          · intro m _ hq; cases hq


/-! ### Claim theorems -/

/-- C1: for every identification string, detection fails when the string is
empty, when splitting on commas yields fewer than two fields, or when the
trimmed second field matches no registered family pattern; otherwise it
returns the first family, in the fixed priority order SDG1000 before
SDG2000X before SDG6000X, with a case-insensitively search-matching
pattern for the designator. -/
theorem detect_model_from_idn_spec (idn : String) :
    (idn = "" → ∃ msg, detect_model_from_idn idn = .error msg)
  ∧ ((splitOnComma (pyStrip idn.data)).length < 2 →
      ∃ msg, detect_model_from_idn idn = .error msg)
  ∧ (firstMatchingFamily
        (pyStrip ((splitOnComma (pyStrip idn.data)).getD 1 [])) = none →
      ∃ msg, detect_model_from_idn idn = .error msg)
  ∧ (∀ fam, idn ≠ "" → ¬ (splitOnComma (pyStrip idn.data)).length < 2 →
      firstMatchingFamily
        (pyStrip ((splitOnComma (pyStrip idn.data)).getD 1 [])) = some fam →
      detect_model_from_idn idn = .ok fam) := by
  refine ⟨fun h0 => ⟨_, by rw [detect_model_eq, if_pos h0]⟩, fun h1 => ?_,
    fun h2 => ?_, fun fam h0 h1 h3 => by rw [detect_model_eq, if_neg h0, if_neg h1, h3]⟩
  · by_cases h0 : idn = ""
    · exact ⟨_, by rw [detect_model_eq, if_pos h0]⟩
    · exact ⟨_, by rw [detect_model_eq, if_neg h0, if_pos h1]⟩
  · by_cases h0 : idn = ""
    · exact ⟨_, by rw [detect_model_eq, if_pos h0]⟩
    · by_cases h1 : (splitOnComma (pyStrip idn.data)).length < 2
      · exact ⟨_, by rw [detect_model_eq, if_neg h0, if_pos h1]⟩
      · exact ⟨_, by rw [detect_model_eq, if_neg h0, if_neg h1, h2]⟩

/-- Witness for C1: a concrete SDG1025 identification string detects as the
SDG1000 family. -/
theorem detect_model_from_idn_spec_witness :
    detect_model_from_idn
      "Siglent Technologies,SDG1025,SDG1XXXXXXXX,1.01.01.33R5" = .ok "SDG1000" :=
  (detect_model_from_idn_spec
      "Siglent Technologies,SDG1025,SDG1XXXXXXXX,1.01.01.33R5").2.2.2
    "SDG1000" (by decide) (by decide) (by rfl)

/-- C2: for the SDG1000 family, `validate_frequency` with no waveform kind
succeeds exactly on the inclusive range [1e-6 Hz, 10e6 Hz] (both endpoints
succeed), and when a waveform kind with a per-waveform cap is supplied
(RAMP 200 kHz, PULSE/NOISE/ARB 5 MHz) any value above that cap fails. -/
theorem validate_frequency_range_spec (v : ℚ) :
    (SDG1000.validate_frequency v none = .ok () ↔
      SDG1000.FREQ_MIN ≤ v ∧ v ≤ SDG1000.FREQ_MAX)
  ∧ SDG1000.validate_frequency SDG1000.FREQ_MIN none = .ok ()
  ∧ SDG1000.validate_frequency SDG1000.FREQ_MAX none = .ok ()
  ∧ SDG1000.per_waveform_frequency_cap "RAMP" = some 200000
  ∧ SDG1000.per_waveform_frequency_cap "PULSE" = some 5000000
  ∧ SDG1000.per_waveform_frequency_cap "NOISE" = some 5000000
  ∧ SDG1000.per_waveform_frequency_cap "ARB" = some 5000000
  ∧ (∀ wt cap, SDG1000.per_waveform_frequency_cap wt = some cap → cap < v →
      ∃ msg, SDG1000.validate_frequency v (some wt) = .error msg) :=
  ⟨SDG1000.validate_frequency_none_iff v, by decide, by decide, rfl, rfl, rfl, rfl,
   fun wt cap hc hv => SDG1000.validate_frequency_cap_exceeded v wt cap hc hv⟩

/-- Witness for C2: 300 kHz is inside the global range but above the RAMP
cap, so it is rejected for the RAMP waveform. -/
theorem validate_frequency_range_spec_witness :
    ∃ msg, SDG1000.validate_frequency 300000 (some "RAMP") = .error msg :=
  (validate_frequency_range_spec 300000).2.2.2.2.2.2.2 "RAMP" 200000
    (by rfl) (by decide)

/-- C3 counterexample: `set_sweep` with an out-of-range start frequency has
already written the `SWWV STATE` command when the validation error is
raised, so the write count at failure is not zero. -/
theorem set_sweep_partial_write_counterexample :
    runProc (SDG1000.set_sweep "C1" "ON" (some 20000000) none none none) =
      (["C1" ++ ":SWWV STATE," ++ "ON"],
        .error "Frequency out of range (1e-06 Hz - 10000000.0 Hz) for SDG1000")
  ∧ ["C1" ++ ":SWWV STATE," ++ "ON"] ≠ ([] : List String) :=
  ⟨rfl, by decide⟩

/-- C3 (amended): `set_burst` validates its cycle count and `set_sweep` its
sweep type before any write (zero commands on failure), but `set_sweep`
validates its start/stop frequencies only after the state-enable command,
so an out-of-range sweep frequency leaves exactly the `SWWV STATE` command
written. -/
theorem set_validation_write_order (channel state : String) (n : Int)
    (bper : Option ℚ) (trig : Option String) (sf : ℚ) (so st : Option ℚ)
    (swt : String) (emsg : String) :
    (n < SDG1000.BURST_CYCLES_MIN ∨ n > SDG1000.BURST_CYCLES_MAX →
      runProc (SDG1000.set_burst channel state (some n) bper trig) =
        ([], .error "Burst cycles out of range (1-50000) for SDG1000"))
  ∧ (swt ≠ "" → pyUpper swt ≠ "LIN" →
      runProc (SDG1000.set_sweep channel state so st bper (some swt)) =
        ([], .error "SDG1000 only supports LINEAR sweep"))
  ∧ (pyUpper state = "ON" → sf ≠ 0 →
      SDG1000.validate_frequency sf none = .error emsg →
      runProc (SDG1000.set_sweep channel state (some sf) so st none) =
        ([channel ++ ":SWWV STATE," ++ state], .error emsg)) :=
  ⟨fun h => SDG1000.set_burst_invalid_cycles channel state n bper trig h,
   fun h1 h2 => SDG1000.set_sweep_bad_type channel state so st bper swt h1 h2,
   fun hon hnz hv => SDG1000.set_sweep_freq_after_state channel state sf so st emsg hon hnz hv⟩

/-- Witness for C3 (amended): concrete traces for the burst-cycle failure
and the sweep-frequency failure. -/
theorem set_validation_write_order_witness :
    runProc (SDG1000.set_burst "C1" "ON" (some 60000) none none) =
      ([], .error "Burst cycles out of range (1-50000) for SDG1000")
  ∧ runProc (SDG1000.set_sweep "C1" "ON" (some 20000000) none none none) =
      (["C1" ++ ":SWWV STATE," ++ "ON"],
        .error "Frequency out of range (1e-06 Hz - 10000000.0 Hz) for SDG1000") :=
  ⟨(set_validation_write_order "C1" "ON" 60000 none none 0 none none "" "").1
      (by decide),
   (set_validation_write_order "C1" "ON" 0 none none 20000000 none none ""
        "Frequency out of range (1e-06 Hz - 10000000.0 Hz) for SDG1000").2.2
      (by rfl) (by decide) (by rfl)⟩

/-- C4: the SDG1025 identification string detects as the SDG1000 family,
which rejects 20 MHz (above its 10 MHz ceiling); the SDG2042X string detects
as the SDG2000X family, whose `set_wave_frequency` accepts the same 20 MHz
and emits its command. -/
theorem end_to_end_scenarios :
    detect_model_from_idn
      "Siglent Technologies,SDG1025,SDG1XXXXXXXX,1.01.01.33R5" = .ok "SDG1000"
  ∧ SDG1000.validate_frequency 20000000 none =
      .error "Frequency out of range (1e-06 Hz - 10000000.0 Hz) for SDG1000"
  ∧ detect_model_from_idn
      "Siglent Technologies,SDG2042X,SDG2XXXXXXXX,2.01.01.35R2" = .ok "SDG2000X"
  ∧ runProc (SDG2000X.set_wave_frequency "C1" 20000000) =
      (["C1" ++ ":BSWV FRQ," ++ pyRepr 20000000], .ok ()) :=
  ⟨rfl, rfl, rfl, rfl⟩

/-- C5: `validate_amplitude` with an unspecified or unrecognised load
behaves exactly like the default path, which enforces the smallest
configured per-load maximum (the 50 Ω 10 Vpp limit); hence any amplitude
accepted under unknown load is accepted under every load. -/
theorem validate_amplitude_unknown_load_strictest (amplitude : ℚ) (load : Option Int) :
    (load = none ∨ (load ≠ some SDG1000.LOAD_50_OHM ∧ load ≠ some SDG1000.HIGH_IMPEDANCE) →
      SDG1000.validate_amplitude amplitude load =
        SDG1000.validate_amplitude amplitude none)
  ∧ (SDG1000.validate_amplitude amplitude none = .ok () ↔
      SDG1000.AMP_MIN ≤ amplitude ∧
        amplitude ≤ min SDG1000.AMP_MAX_50_OHM SDG1000.AMP_MAX_HIGH_Z)
  ∧ (SDG1000.validate_amplitude amplitude none = .ok () →
      SDG1000.validate_amplitude amplitude load = .ok ()) := by
  refine ⟨fun h => SDG1000.validate_amplitude_default_eq amplitude load h, ?_,
    fun h => SDG1000.validate_amplitude_none_strongest amplitude load h⟩
  rw [show min SDG1000.AMP_MAX_50_OHM SDG1000.AMP_MAX_HIGH_Z = SDG1000.AMP_MAX_50_OHM
      from min_eq_left (by norm_num [SDG1000.AMP_MAX_50_OHM, SDG1000.AMP_MAX_HIGH_Z])]
  exact SDG1000.validate_amplitude_none_iff amplitude

/-- Witness for C5: 5 Vpp is accepted under unknown load and therefore also
under the unrecognised 75 Ω load. -/
theorem validate_amplitude_unknown_load_strictest_witness :
    SDG1000.validate_amplitude 5 (some 75) = .ok () :=
  (validate_amplitude_unknown_load_strictest 5 (some 75)).2.2 (by decide)

/-- C6: when the waveform-kind lookup fails, `set_wave_frequency` behaves as
if no waveform kind were known — validation uses the global range only, the
lookup error is not propagated, and an in-range frequency is still written. -/
theorem set_wave_frequency_degraded_lookup (channel : String) (frequency : ℚ)
    (m : String) :
    runProc (SDG1000.set_wave_frequency channel frequency (.error m)) =
      runProc (SDG1000.set_wave_frequency channel frequency (.ok none))
  ∧ (SDG1000.FREQ_MIN ≤ frequency → frequency ≤ SDG1000.FREQ_MAX →
      runProc (SDG1000.set_wave_frequency channel frequency (.error m)) =
        ([channel ++ ":BSWV FRQ," ++ pyRepr frequency], .ok ())) :=
  ⟨SDG1000.set_wave_frequency_lookup_failure_eq channel frequency m,
   fun h1 h2 =>
     SDG1000.set_wave_frequency_lookup_failure_writes channel frequency m h1 h2⟩

/-- Witness for C6: a failing lookup still lets an in-range 1 kHz write go
through. -/
theorem set_wave_frequency_degraded_lookup_witness :
    runProc (SDG1000.set_wave_frequency "C1" 1000 (.error "timeout")) =
      (["C1" ++ ":BSWV FRQ," ++ pyRepr 1000], .ok ()) :=
  (set_wave_frequency_degraded_lookup "C1" 1000 "timeout").2 (by decide) (by decide)

/-- C7 counterexample: `detect_siglent_model` propagates a transport failure
of the identification query unchanged — it is not wrapped as
`UnsupportedModelError`. -/
theorem detect_only_transport_error_unwrapped :
    (detect_siglent_model ⟨.ok (), .error "timeout", .ok (), .ok ()⟩).result =
      .error (.transport "timeout")
  ∧ FactoryError.isUnsupported (.transport "timeout") = false :=
  ⟨rfl, rfl⟩

/-- C7 (amended): on every error path of auto-detection the transient
identification connection is closed before the error propagates, and in
`create_instrument` every error surfaces as `UnsupportedModelError`;
`detect_siglent_model` closes the connection on every exit path too, but
propagates a transport failure unchanged instead of wrapping it. -/
theorem factory_error_paths_close_connection (t : Transport) :
    ((create_instrument none t).tempOpened = true →
      (create_instrument none t).tempClosed = true)
  ∧ (∀ e, (create_instrument none t).result = .error e → e.isUnsupported = true)
  ∧ ((detect_siglent_model t).tempOpened = true →
      (detect_siglent_model t).tempClosed = true)
  ∧ (∀ m, t.openTemp = .ok () → t.idnQuery = .error m →
      (detect_siglent_model t).result = .error (.transport m)) :=
  ⟨(create_auto_closes_and_wraps t).1, (create_auto_closes_and_wraps t).2,
   (detect_only_closes_and_keeps_error t).1,
   (detect_only_closes_and_keeps_error t).2⟩

/-- Witness for C7 (amended): on a concrete transport whose identification
query times out, `detect_siglent_model` surfaces the raw transport error. -/
theorem factory_error_paths_close_connection_witness :
    (detect_siglent_model ⟨.ok (), .error "connection lost", .ok (), .ok ()⟩).result =
      .error (.transport "connection lost") :=
  (factory_error_paths_close_connection
      ⟨.ok (), .error "connection lost", .ok (), .ok ()⟩).2.2.2
    "connection lost" rfl rfl

/-- C8 counterexample: calling `create_instrument` with the empty string as
hint does not fail with `UnsupportedModelError` — Python truthiness treats
the empty hint as absent, so auto-detection runs and an identification
query is issued. -/
theorem empty_hint_triggers_detection :
    (create_instrument (some "")
      ⟨.ok (), .ok "Siglent Technologies,SDG1025,SDG1XXXXXXXX,1.01.01.33R5",
        .ok (), .ok ()⟩).queries = 1
  ∧ (create_instrument (some "")
      ⟨.ok (), .ok "Siglent Technologies,SDG1025,SDG1XXXXXXXX,1.01.01.33R5",
        .ok (), .ok ()⟩).result = .ok "SDG1000" :=
  ⟨rfl, rfl⟩

/-- C8 (amended): for every non-empty hint, construction issues no
identification query and never opens the transient identification
connection; the SDG6000X hint fails with `UnsupportedModelError` without
any construction attempt, and so does every unknown non-empty hint.  (The
empty-string hint is treated as absent and triggers auto-detection.) -/
theorem hint_skips_detection (h : String) (t : Transport) (hne : h ≠ "") :
    ((create_instrument (some h) t).queries = 0)
  ∧ ((create_instrument (some h) t).tempOpened = false)
  ∧ (h = "SDG6000X" → create_instrument (some h) t =
      ⟨.error (.unsupportedModel "SDG6000X not yet implemented"),
        false, false, 0, 0⟩)
  ∧ (h ≠ "SDG1000" → h ≠ "SDG2000X" →
      (create_instrument (some h) t).builds = 0 ∧
      ∃ m, (create_instrument (some h) t).result = .error (.unsupportedModel m)) := by
  have ht : truthyStr (some h) = true := by simp [truthyStr, hne]
  by_cases h1 : h = "SDG1000"
  · subst h1
    cases hb : t.buildSDG1000 with
    | ok u =>
        cases u
        refine ⟨?_, ?_, ?_, ?_⟩ <;> simp [create_instrument, ht, hb]
    | error e =>
        refine ⟨?_, ?_, ?_, ?_⟩ <;> simp [create_instrument, ht, hb]
  · by_cases h2 : h = "SDG2000X"
    · subst h2
      cases hb : t.buildSDG2000X with
      | ok u =>
          cases u
          refine ⟨?_, ?_, ?_, ?_⟩ <;> simp [create_instrument, ht, h1, hb]
      | error e =>
          refine ⟨?_, ?_, ?_, ?_⟩ <;> simp [create_instrument, ht, h1, hb]
    · by_cases h3 : h = "SDG6000X"
      · subst h3
        refine ⟨?_, ?_, ?_, ?_⟩ <;> simp [create_instrument, ht, h1, h2]
      · refine ⟨?_, ?_, ?_, ?_⟩ <;> simp [create_instrument, ht, h1, h2, h3]

/-- Witness for C8 (amended): an unknown non-empty hint fails with
`UnsupportedModelError` without a query and without a construction. -/
theorem hint_skips_detection_witness :
    ((create_instrument (some "SDG9999")
        ⟨.ok (), .ok "x", .ok (), .ok ()⟩).queries = 0)
  ∧ ((create_instrument (some "SDG9999")
        ⟨.ok (), .ok "x", .ok (), .ok ()⟩).builds = 0 ∧
      ∃ m, (create_instrument (some "SDG9999")
        ⟨.ok (), .ok "x", .ok (), .ok ()⟩).result = .error (.unsupportedModel m)) :=
  ⟨(hint_skips_detection "SDG9999" ⟨.ok (), .ok "x", .ok (), .ok ()⟩ (by decide)).1,
   (hint_skips_detection "SDG9999" ⟨.ok (), .ok "x", .ok (), .ok ()⟩ (by decide)).2.2.2
     (by decide) (by decide)⟩

/-- C9 counterexample: `get_modulation_settings` on a response splitting
into an odd number of tokens silently drops the unpaired trailing token and
returns a partial mapping — it is not a decode failure. -/
theorem modulation_odd_tokens_partial_mapping :
    get_modulation_settings "C1:MDWV STATE,ON,AM" = [("c1:mdwv state", "ON")] :=
  rfl

/-- C9 (amended): `get_wave_info` fails on a response splitting into an odd
number of tokens (it never returns a partial mapping), while
`get_modulation_settings` silently returns the mapping of the complete
pairs; unrecognised keys in `get_wave_info` are ignored rather than
raising. -/
theorem decoder_odd_tokens_and_unknown_keys (pf : String → Option ℚ)
    (response : String) (k v : String) (rest : List String) :
    ((splitOnComma (pyStrip response.data)).length % 2 = 1 →
      ∃ msg, get_wave_info pf response = .error msg)
  ∧ ((get_modulation_settings response).length =
      (splitOnComma (pyStrip response.data)).length / 2)
  ∧ (¬ String.mk (pyStrip k.data) ∈ waveInfoKeys →
      waveInfoLoop pf (k :: v :: rest) = waveInfoLoop pf rest) := by
  refine ⟨fun h => ?_, ?_,
    fun h => waveInfoLoop_skips_unrecognized pf k v rest h⟩
  · exact waveInfoLoop_odd pf _ (by rw [List.length_map]; exact h)
  · unfold get_modulation_settings
    rw [modSettingsLoop_length, List.length_map]

/-- Witness for C9 (amended): a three-token wave-info response is a decode
failure, and an unrecognised key is skipped. -/
theorem decoder_odd_tokens_and_unknown_keys_witness :
    (∃ msg, get_wave_info (fun _ => none) "A,B,C" = .error msg)
  ∧ waveInfoLoop (fun _ => none) ["ZZZ", "1", "DLY", "2"] =
      waveInfoLoop (fun _ => none) ["DLY", "2"] :=
  ⟨(decoder_odd_tokens_and_unknown_keys (fun _ => none) "A,B,C" "" "" []).1
      (by decide),
   (decoder_odd_tokens_and_unknown_keys (fun _ => none) "" "ZZZ" "1"
        ["DLY", "2"]).2.2 (by decide)⟩

/-- C10: for every period value at most zero, the SDG1000 `set_wave_period`
computes frequency 0 instead of the reciprocal (so no division by a
non-positive period happens), and the 0 frequency fails the minimum-
frequency check before any command is written. -/
theorem set_wave_period_nonpositive_guard (channel : String) (period : ℚ)
    (lookup : Except String (Option String)) (h : period ≤ 0) :
    (if period > 0 then 1 / period else (0 : ℚ)) = 0
  ∧ runProc (SDG1000.set_wave_period channel period lookup) =
      ([], .error "Frequency out of range (1e-06 Hz - 10000000.0 Hz) for SDG1000") :=
  ⟨if_neg (not_lt.mpr h),
   SDG1000.set_wave_period_nonpos channel period lookup h⟩

/-- Witness for C10: period 0 with a failing lookup raises before any
write. -/
theorem set_wave_period_nonpositive_guard_witness :
    runProc (SDG1000.set_wave_period "C1" 0 (.error "timeout")) =
      ([], .error "Frequency out of range (1e-06 Hz - 10000000.0 Hz) for SDG1000") :=
  (set_wave_period_nonpositive_guard "C1" 0 (.error "timeout") (by decide)).2


end SiglentVisa
